import Mathlib

/-!
Verification of the single-endpoint text-ingestion service in `src/main.py`
(FastAPI + MongoDB + sentence-transformers).

The service is embedded shallowly: the two external collaborators (the
embedding model's `encode` and the store's `insert_one`) are explicit
function parameters, state of the store is passed explicitly, and fallible
operations return `Except`.  The `add_text` endpoint body is translated
line by line from `src/main.py` lines 51-73.
-/

namespace VectorSearch

/-- The embedding model identifier, `MODEL_NAME` in `src/main.py` line 28. -/
def MODEL_NAME : String := "all-MiniLM-L6-v2"

/-- A persisted Text Document: the dict built in `src/main.py` lines 63-68,
with fields title, content, embedding, model. -/
structure Document where
  title : String
  content : String
  embedding : List Float
  model : String

/-- Request schema `AddTextRequest` (`src/main.py` lines 32-34):
two required text fields. -/
structure AddTextRequest where
  title : String
  content : String
deriving DecidableEq

/-- Response schema `AddTextResponse` (`src/main.py` lines 36-38). -/
structure AddTextResponse where
  inserted_id : String
  title : String
deriving DecidableEq

/-- `HTTPException(status_code=..., detail=...)` as raised in
`src/main.py` line 73. -/
structure HTTPError where
  status_code : Nat
  detail : String
deriving DecidableEq

/-- The value returned by the embedding collaborator's encode operation:
either a numpy-style array (which has a `tolist` method) or a plain list;
`src/main.py` lines 41-43 distinguish exactly these two cases. -/
inductive EncVector where
  | array (data : List Float)
  | plain (data : List Float)

/-- Dimension of an encoder output. -/
def EncVector.len : EncVector → Nat
  | .array d => d.length
  | .plain d => d.length

/-- `_to_list` (`src/main.py` lines 41-43): `vector.tolist()` when the
vector has `tolist` (the numpy-array case), otherwise `list(vector)`. -/
def _to_list : EncVector → List Float
  | .array d => d
  | .plain d => d

/-- State of the store collaborator's collection: the inserted documents
paired with their store-generated identifiers, plus the next fresh
identifier to hand out. -/
structure Store where
  docs : List (Nat × Document)
  nextId : Nat

/-- The store collaborator's `insert_one` in its normal (non-failing) mode:
atomically appends the document under a fresh unique identifier and returns
that identifier, per the store contract assumed by `src/main.py` line 69. -/
def insertOne (st : Store) (d : Document) : Except String (Nat × Store) :=
  .ok (st.nextId, ⟨st.docs ++ [(st.nextId, d)], st.nextId + 1⟩)

/-- The text blob handed to encode:
`f"{payload.title}\n\n{payload.content}"` (`src/main.py` line 57). -/
def encodedText (payload : AddTextRequest) : String :=
  payload.title ++ "\n\n" ++ payload.content

/-- The document dict built in `src/main.py` lines 63-68 from the payload
and the encoder output. -/
def mkDoc (payload : AddTextRequest) (v : EncVector) : Document :=
  { title := payload.title
    content := payload.content
    embedding := _to_list v
    model := MODEL_NAME }

/-- `add_text` (`src/main.py` lines 51-73).  The encoder and the store's
insert operation are the two collaborator parameters; each may fail
(raising an exception in the Python source, an `Except.error` here), and
the `try/except` of lines 56-73 maps any such failure to an
`HTTPException` with status 500 and the exception's text as detail.
The function returns the response (or error) together with the store state
after the call. -/
def add_text (encode : String → Except String EncVector)
    (insert : Store → Document → Except String (Nat × Store))
    (st : Store) (payload : AddTextRequest) :
    Except HTTPError AddTextResponse × Store :=
  match encode (encodedText payload) with
  | .error e => (.error ⟨500, e⟩, st)
  | .ok embedding =>
      let doc := mkDoc payload embedding
      match insert st doc with
      | .error e => (.error ⟨500, e⟩, st)
      | .ok (insertedId, st') =>
          (.ok ⟨toString insertedId, payload.title⟩, st')

/-- A concrete always-succeeding encoder used for concrete evaluations. -/
def constEnc : String → Except String EncVector :=
  fun _ => .ok (.array [])

/-- A concrete always-failing insert operation (simulated store
disconnection). -/
def failIns : Store → Document → Except String (Nat × Store) :=
  fun _ _ => .error "connection lost"

/-- The empty initial store. -/
def st0 : Store := ⟨[], 0⟩

/-! ### Helper lemmas about `add_text` -/

/-- If the encoder fails, `add_text` returns a 500 error carrying the
exception text and leaves the store untouched. -/
lemma add_text_encode_error (encode : String → Except String EncVector)
    (insert : Store → Document → Except String (Nat × Store))
    (st : Store) (p : AddTextRequest) (e : String)
    (h : encode (encodedText p) = .error e) :
    add_text encode insert st p = (.error ⟨500, e⟩, st) := by
  simp [add_text, h]

/-- If the encoder succeeds but the insert fails, `add_text` returns a 500
error carrying the exception text and leaves the store untouched. -/
lemma add_text_insert_error (encode : String → Except String EncVector)
    (insert : Store → Document → Except String (Nat × Store))
    (st : Store) (p : AddTextRequest) (v : EncVector) (e : String)
    (h1 : encode (encodedText p) = .ok v)
    (h2 : insert st (mkDoc p v) = .error e) :
    add_text encode insert st p = (.error ⟨500, e⟩, st) := by
  simp [add_text, h1, h2]

/-- If both collaborators succeed, `add_text` returns the generated
identifier as text plus the original title, and the new store state. -/
lemma add_text_ok (encode : String → Except String EncVector)
    (insert : Store → Document → Except String (Nat × Store))
    (st st' : Store) (p : AddTextRequest) (v : EncVector) (i : Nat)
    (h1 : encode (encodedText p) = .ok v)
    (h2 : insert st (mkDoc p v) = .ok (i, st')) :
    add_text encode insert st p = (.ok ⟨toString i, p.title⟩, st') := by
  simp [add_text, h1, h2]

/-- `insertOne` appends exactly one identified document and bumps the
fresh-identifier counter. -/
lemma insertOne_eq (st : Store) (d : Document) :
    insertOne st d = .ok (st.nextId, ⟨st.docs ++ [(st.nextId, d)], st.nextId + 1⟩) :=
  rfl

/-- `_to_list` preserves the vector dimension. -/
lemma _to_list_length (v : EncVector) : (_to_list v).length = v.len := by
  cases v <;> rfl

/-! ### Claim theorems -/

/-- C1: for every (title, content) payload, when the encoder succeeds a
call to `add_text` against the normally functioning store persists exactly
one document, whose title/content are exactly the inputs, whose embedding
is the normalized encoder output and whose model field is `MODEL_NAME`,
and returns the store-generated identifier as text with the original
title. -/
theorem addText_success_persists_exactly_one
    (encode : String → Except String EncVector)
    (st : Store) (p : AddTextRequest) (v : EncVector)
    (h : encode (encodedText p) = .ok v) :
    add_text encode insertOne st p =
      (.ok ⟨toString st.nextId, p.title⟩,
       ⟨st.docs ++ [(st.nextId,
          { title := p.title, content := p.content,
            embedding := _to_list v, model := MODEL_NAME })],
        st.nextId + 1⟩) :=
  add_text_ok encode insertOne st _ p v st.nextId h rfl

/-- Concrete run of C1: ingesting ("Hello", "World") into the empty store
with a succeeding encoder persists exactly that document and returns id
"0" with title "Hello". -/
theorem addText_success_persists_exactly_one_witness :
    add_text constEnc insertOne st0 ⟨"Hello", "World"⟩ =
      (.ok ⟨"0", "Hello"⟩,
       ⟨[(0, { title := "Hello", content := "World",
               embedding := [], model := MODEL_NAME })], 1⟩) :=
  addText_success_persists_exactly_one constEnc st0 ⟨"Hello", "World"⟩
    (.array []) rfl

/-- C2: the encoder is consulted only at the blob
`title ++ "\n\n" ++ content` — two encoders agreeing on exactly that string
make `add_text` behave identically — and this blank-line framing differs
from raw concatenation. -/
theorem addText_encode_input_framing :
    (∀ (p : AddTextRequest) (enc₁ enc₂ : String → Except String EncVector)
       (insert : Store → Document → Except String (Nat × Store)) (st : Store),
       enc₁ (p.title ++ "\n\n" ++ p.content) = enc₂ (p.title ++ "\n\n" ++ p.content) →
       add_text enc₁ insert st p = add_text enc₂ insert st p) ∧
    (∃ p : AddTextRequest, encodedText p ≠ p.title ++ p.content) := by
  constructor
  · intro p enc₁ enc₂ insert st h
    have h' : enc₁ (encodedText p) = enc₂ (encodedText p) := h
    simp [add_text, h']
  · exact ⟨⟨"a", "b"⟩, by decide⟩

/-- Concrete instance of C2 at ("a", "b"): two encoders agreeing on
"a\n\nb" give equal `add_text` outcomes. -/
theorem addText_encode_input_framing_witness :
    add_text constEnc insertOne st0 ⟨"a", "b"⟩ =
      add_text (fun s => if s = "a" ++ "\n\n" ++ "b" then .ok (.array []) else .error "boom")
        insertOne st0 ⟨"a", "b"⟩ :=
  addText_encode_input_framing.1 ⟨"a", "b"⟩ constEnc
    (fun s => if s = "a" ++ "\n\n" ++ "b" then .ok (.array []) else .error "boom")
    insertOne st0 rfl

/-- The embedding-dimension invariant of the data model: every stored
document whose model field is `MODEL_NAME` has an embedding of length
exactly 384. -/
def EmbInv (st : Store) : Prop :=
  ∀ e ∈ st.docs, e.2.model = MODEL_NAME → e.2.embedding.length = 384

/-- C3: under the hypothesis that the encoder only returns vectors of the
model's fixed dimension 384, a successful ingestion persists an embedding
of length exactly 384, and `add_text` preserves the invariant that all
stored documents with the same model field have embeddings of that
constant length. -/
theorem addText_embedding_dim_invariant
    (encode : String → Except String EncVector)
    (st : Store) (p : AddTextRequest)
    (henc : ∀ s v, encode s = .ok v → v.len = 384)
    (hinv : EmbInv st) :
    EmbInv (add_text encode insertOne st p).2 ∧
    (∀ v, encode (encodedText p) = .ok v →
       (add_text encode insertOne st p).2.docs =
         st.docs ++ [(st.nextId, mkDoc p v)] ∧
       (mkDoc p v).embedding.length = 384) := by
  have hdoc : ∀ v, encode (encodedText p) = .ok v →
      (mkDoc p v).embedding.length = 384 := by
    intro v hv
    simpa [mkDoc, _to_list_length] using henc _ v hv
  refine ⟨?_, ?_⟩
  · cases hv : encode (encodedText p) with
    | error e =>
        rw [add_text_encode_error encode insertOne st p e hv]
        exact hinv
    | ok v =>
        rw [addText_success_persists_exactly_one encode st p v hv]
        intro x hx hm
        rcases List.mem_append.1 hx with hold | hnew
        · exact hinv x hold hm
        · have hx2 : x = (st.nextId, mkDoc p v) := by simpa [mkDoc] using hnew
          subst hx2
          exact hdoc v hv
  · intro v hv
    rw [addText_success_persists_exactly_one encode st p v hv]
    exact ⟨by simp [mkDoc], hdoc v hv⟩

/-- A concrete encoder always returning a 384-dimensional vector. -/
def enc384 : String → Except String EncVector :=
  fun _ => .ok (.array (List.replicate 384 (0.0 : Float)))

/-- Concrete run of C3: starting from the empty store with the
384-dimensional encoder, the invariant holds after ingesting
("Hello", "World"). -/
theorem addText_embedding_dim_invariant_witness :
    EmbInv (add_text enc384 insertOne st0 ⟨"Hello", "World"⟩).2 :=
  (addText_embedding_dim_invariant enc384 st0 ⟨"Hello", "World"⟩
    (by intro s v h
        simp only [enc384, Except.ok.injEq] at h
        subst h
        exact List.length_replicate _ _)
    (by intro e he; simp [st0] at he)).1

/-- C4: every collaborator failure — a failing embedding computation or a
failing store insert — is caught and surfaces as the single generic
status-500 error whose detail is exactly the underlying exception's text
(hence contains it); no other error kind is produced. -/
theorem addText_failures_collapse_to_500
    (encode : String → Except String EncVector)
    (insert : Store → Document → Except String (Nat × Store))
    (st : Store) (p : AddTextRequest) :
    (∀ e, encode (encodedText p) = .error e →
       (add_text encode insert st p).1 = .error ⟨500, e⟩) ∧
    (∀ v e, encode (encodedText p) = .ok v →
       insert st (mkDoc p v) = .error e →
       (add_text encode insert st p).1 = .error ⟨500, e⟩) := by
  constructor
  · intro e h
    rw [add_text_encode_error encode insert st p e h]
  · intro v e h1 h2
    rw [add_text_insert_error encode insert st p v e h1 h2]

/-- Concrete run of C4: with an encoder that always fails with "model gone",
the call returns exactly the 500 error carrying that text. -/
theorem addText_failures_collapse_to_500_witness :
    (add_text (fun _ => .error "model gone") insertOne st0 ⟨"t", "c"⟩).1 =
      .error ⟨500, "model gone"⟩ :=
  (addText_failures_collapse_to_500 (fun _ => .error "model gone")
    insertOne st0 ⟨"t", "c"⟩).1 "model gone" rfl

/-- C5: when the store's insert operation raises, `add_text` returns a
500-status failure and the store state it leaves behind is exactly the
state before the call — no partial or complete document from that call is
observable. -/
theorem addText_insert_failure_atomic
    (encode : String → Except String EncVector)
    (insert : Store → Document → Except String (Nat × Store))
    (st : Store) (p : AddTextRequest) (v : EncVector) (e : String)
    (h1 : encode (encodedText p) = .ok v)
    (h2 : insert st (mkDoc p v) = .error e) :
    add_text encode insert st p = (.error ⟨500, e⟩, st) :=
  add_text_insert_error encode insert st p v e h1 h2

/-- Concrete run of C5: with the always-failing insert (simulated
disconnection), the call returns the 500 error and the store is unchanged
(still empty). -/
theorem addText_insert_failure_atomic_witness :
    add_text constEnc failIns st0 ⟨"t", "c"⟩ =
      (.error ⟨500, "connection lost"⟩, st0) :=
  addText_insert_failure_atomic constEnc failIns st0 ⟨"t", "c"⟩
    (.array []) "connection lost" rfl rfl

/-- C6 counterexample: `AddTextRequest` constrains title and content only
to be text (`str`), with no non-emptiness check anywhere in `add_text`, so
a request with empty title IS successfully ingested: the call returns a
success response and persists a document whose title field is the empty
string — refuting the claim that empty title or content is never
successfully ingested. -/
theorem addText_empty_title_accepted_cex :
    (add_text constEnc insertOne st0 ⟨"", "World"⟩).1 =
      .ok ⟨"0", ""⟩ ∧
    (add_text constEnc insertOne st0 ⟨"", "World"⟩).2.docs =
      [(0, { title := "", content := "World",
             embedding := [], model := MODEL_NAME })] :=
  ⟨rfl, rfl⟩

/-- C6 (amended): title and content are required text values but may be
empty — with a succeeding encoder, a request whose title or content is
the empty string is ingested like any other, persisting a document whose
corresponding field is the empty string. -/
theorem addText_accepts_empty_fields
    (encode : String → Except String EncVector)
    (st : Store) (p : AddTextRequest) (v : EncVector)
    (_hempty : p.title = "" ∨ p.content = "")
    (h : encode (encodedText p) = .ok v) :
    (add_text encode insertOne st p).1 =
      .ok ⟨toString st.nextId, p.title⟩ ∧
    (add_text encode insertOne st p).2.docs =
      st.docs ++ [(st.nextId,
        { title := p.title, content := p.content,
          embedding := _to_list v, model := MODEL_NAME })] := by
  rw [addText_success_persists_exactly_one encode st p v h]
  exact ⟨rfl, rfl⟩

/-- Concrete run of the amended C6 at ("Hello", ""): an empty content is
also ingested successfully (the counterexample covers the empty-title
case). -/
theorem addText_accepts_empty_fields_witness :
    (add_text constEnc insertOne st0 ⟨"Hello", ""⟩).1 = .ok ⟨"0", "Hello"⟩ :=
  (addText_accepts_empty_fields constEnc st0 ⟨"Hello", ""⟩ (.array [])
    (Or.inr rfl) rfl).1

/-- C7: calling `add_text` twice with the identical payload against the
store (which hands out a fresh unique identifier per insert) persists two
distinct identified documents under two distinct identifiers — no
deduplication happens. -/
theorem addText_no_dedup
    (encode : String → Except String EncVector)
    (st : Store) (p : AddTextRequest) (v : EncVector)
    (h : encode (encodedText p) = .ok v) :
    (add_text encode insertOne ((add_text encode insertOne st p).2) p).2.docs =
      st.docs ++ [(st.nextId, mkDoc p v), (st.nextId + 1, mkDoc p v)] ∧
    (add_text encode insertOne st p).1 = .ok ⟨toString st.nextId, p.title⟩ ∧
    (add_text encode insertOne ((add_text encode insertOne st p).2) p).1 =
      .ok ⟨toString (st.nextId + 1), p.title⟩ ∧
    st.nextId ≠ st.nextId + 1 ∧
    (st.nextId, mkDoc p v) ≠ (st.nextId + 1, mkDoc p v) := by
  have h1 := addText_success_persists_exactly_one encode st p v h
  have h2 := addText_success_persists_exactly_one encode
    ⟨st.docs ++ [(st.nextId, mkDoc p v)], st.nextId + 1⟩ p v h
  simp only [mkDoc] at h1 h2 ⊢
  refine ⟨?_, ?_, ?_, ?_, ?_⟩
  · simp [h1, h2]
  · simp [h1]
  · simp [h1, h2]
  · exact Nat.ne_of_lt (Nat.lt_succ_self _)
  · intro hc
    exact Nat.ne_of_lt (Nat.lt_succ_self st.nextId) (congrArg Prod.fst hc)

/-- Concrete run of C7: ingesting ("Hello", "World") twice from the empty
store yields the same document under the two distinct identifiers 0 and 1. -/
theorem addText_no_dedup_witness :
    (add_text constEnc insertOne
        ((add_text constEnc insertOne st0 ⟨"Hello", "World"⟩).2)
        ⟨"Hello", "World"⟩).2.docs =
      [(0, mkDoc ⟨"Hello", "World"⟩ (.array [])),
       (1, mkDoc ⟨"Hello", "World"⟩ (.array []))] :=
  (addText_no_dedup constEnc st0 ⟨"Hello", "World"⟩ (.array []) rfl).1

/-! ### Request boundary (framework validation) and startup configuration -/

/-- A JSON value appearing in a request payload field. -/
inductive JsonValue where
  | jstr (s : String)
  | jnum (n : Int)
  | jbool (b : Bool)
  | jnull
deriving DecidableEq

/-- A raw `/add-text` request payload before validation: each declared
field is either absent or some JSON value. -/
structure RawPayload where
  title : Option JsonValue
  content : Option JsonValue
deriving DecidableEq

/-- Modelled from the spec: the web framework's built-in schema validation
of `AddTextRequest` (two required `str` fields, `src/main.py` lines 32-34);
a payload missing either field or giving it a non-text value is rejected
with a 422 validation error before the endpoint body runs.  The framework
code itself is not in `src/`. -/
def parseAddTextRequest : RawPayload → Except Nat AddTextRequest
  | ⟨some (.jstr t), some (.jstr c)⟩ => .ok ⟨t, c⟩
  | _ => .error 422

/-- Modelled from the spec: the framework dispatch for POST `/add-text` —
validation first, then the endpoint function `add_text`. -/
def handle_add_text (encode : String → Except String EncVector)
    (insert : Store → Document → Except String (Nat × Store))
    (st : Store) (p : RawPayload) :
    Except HTTPError AddTextResponse × Store :=
  match parseAddTextRequest p with
  | .error code => (.error ⟨code, "validation error"⟩, st)
  | .ok req => add_text encode insert st req

/-- A payload that omits title or content or gives it a non-text value. -/
def invalidPayload (p : RawPayload) : Prop :=
  (∀ s, p.title ≠ some (.jstr s)) ∨ (∀ s, p.content ≠ some (.jstr s))

/-- C8: a payload omitting title or content (or giving a non-text value)
is rejected with a 422 validation error before the service logic runs:
the outcome is the same for every encoder and every store insert operation
(so neither collaborator is consulted) and the store state is unchanged —
no document is written. -/
theorem validation_rejects_before_service
    (p : RawPayload) (hp : invalidPayload p) :
    ∀ (encode : String → Except String EncVector)
      (insert : Store → Document → Except String (Nat × Store)) (st : Store),
      handle_add_text encode insert st p =
        (.error ⟨422, "validation error"⟩, st) := by
  intro encode insert st
  have hparse : parseAddTextRequest p = .error 422 := by
    rcases p with ⟨t, c⟩
    rcases t with _ | tv
    · rcases c with _ | cv
      · rfl
      · cases cv <;> rfl
    · rcases c with _ | cv
      · cases tv <;> rfl
      · cases tv with
        | jstr a =>
            cases cv with
            | jstr b =>
                rcases hp with hp | hp
                · exact absurd rfl (hp a)
                · exact absurd rfl (hp b)
            | jnum n => rfl
            | jbool b => rfl
            | jnull => rfl
        | jnum n => cases cv <;> rfl
        | jbool b => cases cv <;> rfl
        | jnull => cases cv <;> rfl
  simp [handle_add_text, hparse]

/-- Concrete run of C8: a payload with no title field and a valid content
field is rejected with 422 and leaves the empty store empty. -/
theorem validation_rejects_before_service_witness :
    handle_add_text constEnc insertOne st0 ⟨none, some (.jstr "World")⟩ =
      (.error ⟨422, "validation error"⟩, st0) :=
  validation_rejects_before_service ⟨none, some (.jstr "World")⟩
    (Or.inl (fun _ h => Option.noConfusion h)) constEnc insertOne st0

/-- The process environment at startup: a lookup from variable names to
optional values, as read by `os.getenv`. -/
structure Env where
  get : String → Option String

/-- The startup configuration assembled in `src/main.py` lines 12-14. -/
structure Config where
  mongodb_uri : String
  db_name : String
  text_collection : String
deriving DecidableEq

/-- The startup sequence of `src/main.py` lines 12-17: read `MONGODB_URI`
(no default), `DB_NAME` (default "vector_db"), `TEXT_COLLECTION` (default
"texts"); raise `RuntimeError` — the process fails to start — when
`MONGODB_URI` is absent or falsy (the empty string). -/
def startup (env : Env) : Except String Config :=
  let mongodb_uri := env.get "MONGODB_URI"
  let db_name := (env.get "DB_NAME").getD "vector_db"
  let text_collection := (env.get "TEXT_COLLECTION").getD "texts"
  match mongodb_uri with
  | none => .error "Set MONGODB_URI in .env before running"
  | some u =>
      if u = "" then .error "Set MONGODB_URI in .env before running"
      else .ok ⟨u, db_name, text_collection⟩

/-- C9: when the store connection string is absent, startup fails with the
fatal `RuntimeError`; when startup succeeds and the database name (resp.
collection name) is absent from the environment, the default "vector_db"
(resp. "texts") is used. -/
theorem startup_config_defaults (env : Env) :
    (env.get "MONGODB_URI" = none →
       startup env = .error "Set MONGODB_URI in .env before running") ∧
    (∀ cfg, startup env = .ok cfg →
       (env.get "DB_NAME" = none → cfg.db_name = "vector_db") ∧
       (env.get "TEXT_COLLECTION" = none → cfg.text_collection = "texts")) := by
  constructor
  · intro h
    simp [startup, h]
  · intro cfg hcfg
    cases hu : env.get "MONGODB_URI" with
    | none => simp [startup, hu] at hcfg
    | some u =>
        by_cases hu0 : u = ""
        · simp [startup, hu, hu0] at hcfg
        · simp [startup, hu, hu0] at hcfg
          constructor
          · intro hd
            rw [← hcfg, hd]
            rfl
          · intro ht
            rw [← hcfg, ht]
            rfl

/-- Concrete run of C9: an environment defining only `MONGODB_URI` starts
up with the default database and collection names. -/
theorem startup_config_defaults_witness :
    startup ⟨fun k => if k = "MONGODB_URI" then some "mongodb://x" else none⟩ =
      .ok ⟨"mongodb://x", "vector_db", "texts"⟩ ∧
    (⟨"mongodb://x", "vector_db", "texts"⟩ : Config).db_name = "vector_db" := by
  refine ⟨rfl, ?_⟩
  exact ((startup_config_defaults
    ⟨fun k => if k = "MONGODB_URI" then some "mongodb://x" else none⟩).2
      ⟨"mongodb://x", "vector_db", "texts"⟩ rfl).1 rfl

/-- C10: the blank-line framing is not injective: the distinct payloads
("a", "b\n\nc") and ("a\n\nb", "c") produce the identical text blob —
hence any encoder yields identical embeddings for them — while they are
persisted as documents with different title/content fields. -/
theorem framing_not_injective :
    encodedText ⟨"a", "b\n\nc"⟩ = encodedText ⟨"a\n\nb", "c"⟩ ∧
    (⟨"a", "b\n\nc"⟩ : AddTextRequest) ≠ ⟨"a\n\nb", "c"⟩ ∧
    (∀ encode : String → Except String EncVector,
       encode (encodedText ⟨"a", "b\n\nc"⟩) = encode (encodedText ⟨"a\n\nb", "c"⟩)) ∧
    (add_text constEnc insertOne st0 ⟨"a", "b\n\nc"⟩).2.docs.map
        (fun e => (e.2.title, e.2.content)) ≠
      (add_text constEnc insertOne st0 ⟨"a\n\nb", "c"⟩).2.docs.map
        (fun e => (e.2.title, e.2.content)) := by
  refine ⟨by decide, by decide, ?_, by decide⟩
  intro encode
  exact congrArg encode (by decide)

end VectorSearch
